import Mathlib

/-
Verification development for a TTS streaming service.

The service (app.py) keeps a process-wide cache of synthesis engines keyed
by language code, bridges a callback-driven synthesis session into an
asynchronous byte stream through a FIFO queue plus a completion event, and
exposes the stream over a GET /tts endpoint.  A small plugin factory
(factory.py, plugins/xtts_plugin.py) selects alternate backends by name.

The embedding below models each piece directly from the source:
  * the engine pool (module globals ENGINES / ENGINE_LOCK, get_engine,
    the lifespan context manager, PRELOAD_LANGS) as a `Pool` state passed
    explicitly, with a construction counter as ghost instrumentation and a
    `fails` predicate standing for the KokoroEngine constructor raising;
  * the streaming bridge (stream_tts_bytes) as a small-step system: the
    producer delivers its callback events (audio chunk enqueue, stop) and
    the consumer runs the poll loop body; a schedule interleaves the two;
  * the endpoint (query validation per the declared Query constraints,
    and the StreamingResponse construction);
  * the factory lookup and the XTTS plugin keyword-argument merge.
-/

/-! ## Engine pool (app.py: ENGINES, get_engine, lifespan, PRELOAD_LANGS) -/

/-- Association-list lookup, modelling a Python dict read (`d[k]` / `k in d`). -/
def lookupKey {α : Type} : List (String × α) → String → Option α
  | [], _ => none
  | (k, v) :: rest, key => if k = key then some v else lookupKey rest key

/-- The module-level engine cache.  `engines` models the dict `ENGINES`
(engine instances are identified by the `Nat` id handed out at their
construction); `nextId` and `constructions` are ghost instrumentation
counting constructor calls, so that "performs no construction" is statable. -/
structure Pool where
  engines : List (String × Nat)
  nextId : Nat
  constructions : Nat
deriving DecidableEq

/-- The pool before any engine has been constructed (module import time). -/
def emptyPool : Pool := { engines := [], nextId := 0, constructions := 0 }

/-- Constructing `KokoroEngine(lang_code=lang)` and storing it under `lang`
(`ENGINES[lang_code] = KokoroEngine(lang_code=lang_code)`). -/
def constructEngine (p : Pool) (lang : String) : Pool :=
  { engines := (lang, p.nextId) :: p.engines
    nextId := p.nextId + 1
    constructions := p.constructions + 1 }

/-- app.py `get_engine(lang_code)`: fast-path read of ENGINES, then the
double-checked read under ENGINE_LOCK, then construct-and-cache.  `fails`
models the KokoroEngine constructor raising for a given language; an
exception propagates before the dict assignment runs, so the pool comes
back unchanged in that case.  The final `return ENGINES[lang_code]` is the
lookup on the updated pool. -/
def get_engine (fails : String → Bool) (p : Pool) (lang_code : String) :
    Except Unit Nat × Pool :=
  match lookupKey p.engines lang_code with
  | some e => (Except.ok e, p)
  | none =>
    match lookupKey p.engines lang_code with
    | some e => (Except.ok e, p)
    | none =>
      if fails lang_code then (Except.error (), p)
      else
        let p1 := constructEngine p lang_code
        match lookupKey p1.engines lang_code with
        | some e => (Except.ok e, p1)
        | none => (Except.error (), p1)

/-- app.py `PRELOAD_LANGS = ["a", "b"]`. -/
def PRELOAD_LANGS : List String := ["a", "b"]

/-- One iteration of the preload loop body inside `lifespan`:
`if lang not in ENGINES: ENGINES[lang] = KokoroEngine(lang_code=lang)`. -/
def preloadStep (p : Pool) (lang : String) : Pool :=
  match lookupKey p.engines lang with
  | some _ => p
  | none => constructEngine p lang

/-- The startup half of the `lifespan` context manager body (before `yield`). -/
def lifespan_startup (p : Pool) : Pool :=
  PRELOAD_LANGS.foldl preloadStep p

/-- The shutdown half of the `lifespan` body (after `yield`): `ENGINES.clear()`. -/
def lifespan_shutdown (p : Pool) : Pool :=
  { p with engines := [] }

/-- The FastAPI application object as constructed in app.py.  The source
calls `FastAPI(title=...)` only, so no lifespan context manager is handed
to the framework; `hasLifespan` records whether one was. -/
structure FastAPIApp where
  title : String
  hasLifespan : Bool
deriving DecidableEq

/-- app.py line 11: `app = FastAPI(title="RealtimeTTS + Kokoro (Preload, Multi-language)")`. -/
def app : FastAPIApp :=
  { title := "RealtimeTTS + Kokoro (Preload, Multi-language)", hasLifespan := false }

/-- The pool in effect when the first request arrives: the framework runs
the registered lifespan hook at startup if and only if one was registered
at construction time. -/
def startupPool (a : FastAPIApp) : Pool :=
  if a.hasLifespan then lifespan_startup emptyPool else emptyPool

/-! ## HTTP endpoint (app.py: the `/tts` route) -/

/-- The query string of a GET /tts request, before validation: each
parameter is present or absent.  `speed` is modelled over `Rat`; the
comparisons the route declares (`ge=0.5`, `le=2.0`) are exact at every
value the claims mention, both as rationals and as the doubles FastAPI
parses. -/
structure RawQuery where
  text : Option String
  voice : Option String
  lang : Option String
  speed : Option Rat
deriving DecidableEq

/-- The validated parameters handed to the route body: `voice` defaults to
"af_heart", `lang` to "a", `speed` to 1.0. -/
structure TtsParams where
  text : String
  voice : String
  lang : String
  speed : Rat
deriving DecidableEq

/-- FastAPI validation of the declared Query constraints: `text` is
required with `min_length=1`; `speed` must satisfy `ge=0.5` and `le=2.0`;
a violation rejects the request with status 422; absent optional
parameters take their declared defaults. -/
def validateQuery (r : RawQuery) : Except Nat TtsParams :=
  match r.text with
  | none => Except.error 422
  | some t =>
    if t.length < 1 then Except.error 422
    else
      let sp := r.speed.getD 1
      if sp < 1/2 ∨ 2 < sp then Except.error 422
      else Except.ok
        { text := t
          voice := r.voice.getD "af_heart"
          lang := r.lang.getD "a"
          speed := sp }

/-- Whether the request passes validation (is answered by the route body
rather than a 422). -/
def isAccepted (r : RawQuery) : Bool :=
  match validateQuery r with
  | Except.ok _ => true
  | Except.error _ => false

/-- The arguments the route passes to `stream_tts_bytes`; they identify the
streamed body of the response. -/
structure StreamArgs where
  text : String
  voice : String
  speed : Rat
  lang : String
deriving DecidableEq

/-- The `StreamingResponse` the route returns: default status 200, the
given media type and custom headers, body produced by the generator. -/
structure HttpResponse where
  status : Nat
  mediaType : String
  headers : List (String × String)
  body : StreamArgs
deriving DecidableEq

/-- app.py route body `tts(...)`: builds the stream generator from the
validated parameters and wraps it in a StreamingResponse with media type
audio/pcm and the three X-Audio headers. -/
def tts (p : TtsParams) : HttpResponse :=
  { status := 200
    mediaType := "audio/pcm"
    headers :=
      [("X-Audio-Sample-Rate", "24000"),
       ("X-Audio-Codec", "s16le"),
       ("X-Audio-Channels", "1")]
    body := { text := p.text, voice := p.voice, speed := p.speed, lang := p.lang } }

/-! ## Module tail (app.py: the `__main__` guard) -/

/-- app.py line 107: the condition `"__name__" == "__main__"`, a comparison
of two distinct string literals (not of the module variable `__name__`). -/
def mainGuardCond : Bool := "__name__" == "__main__"

/-- Whether the guarded branch (the `uvicorn.run(...)` server start) runs
when the module is executed. -/
def uvicornRunCalled : Bool := if mainGuardCond then true else false

/-! ## Streaming bridge (app.py: stream_tts_bytes)

The consumer loop of `stream_tts_bytes` polls a FIFO queue fed by the
synthesis session's `on_audio_chunk` callback, with an `asyncio.Event` set
by `on_audio_stream_stop`; each cycle first checks `done.is_set() and
q.empty()` and breaks, otherwise awaits `q.get()` with a 0.1s timeout and
either yields the chunk or loops on timeout.  The model below runs the
producer callbacks and the consumer loop body as interleaved small steps:
a `Bool` schedule picks which side moves, covering every order in which
enqueues (possibly from the library's worker context) can land between
polls.  Per the session contract, the producer emits its audio chunks in
order and then signals stop. -/

abbrev Chunk := List Nat

inductive ProdEvent where
  | chunk (b : Chunk)
  | stop
deriving DecidableEq

structure BridgeState where
  pending : List ProdEvent
  queue : List Chunk
  done : Bool
  yielded : List Chunk
  halted : Bool
deriving DecidableEq

def sessionEvents (bs : List Chunk) : List ProdEvent :=
  bs.map ProdEvent.chunk ++ [ProdEvent.stop]

def initBridge (bs : List Chunk) : BridgeState :=
  { pending := sessionEvents bs, queue := [], done := false, yielded := [], halted := false }

def producerStep (s : BridgeState) : BridgeState :=
  match s.pending with
  | [] => s
  | ProdEvent.chunk b :: rest => { s with pending := rest, queue := s.queue ++ [b] }
  | ProdEvent.stop :: rest => { s with pending := rest, done := true }

def consumerStep (s : BridgeState) : BridgeState :=
  if s.halted then s
  else if s.done && s.queue.isEmpty then { s with halted := true }
  else
    match s.queue with
    | [] => s
    | b :: rest => { s with queue := rest, yielded := s.yielded ++ [b] }

def runSched : BridgeState → List Bool → BridgeState
  | s, [] => s
  | s, true :: sch => runSched (producerStep s) sch
  | s, false :: sch => runSched (consumerStep s) sch

def BridgeInv (bs : List Chunk) (s : BridgeState) : Prop :=
  (s.halted = true → s.done = true ∧ s.queue = []) ∧
  ((s.done = false ∧ ∃ pre suf, bs = pre ++ suf ∧
      s.pending = suf.map ProdEvent.chunk ++ [ProdEvent.stop] ∧
      s.yielded ++ s.queue = pre)
   ∨ (s.done = true ∧ s.pending = [] ∧ s.yielded ++ s.queue = bs))

/-! ## Plugin factory (factory.py) and XTTS plugin (plugins/xtts_plugin.py) -/

/-- A failed factory lookup (`raise KeyError(...)` in factory.py): the
message carries the unknown name and the currently registered names. -/
structure FactoryErr where
  missing : String
  available : List String
deriving DecidableEq

/-- The object `cls(**engine_kwargs)` built by a successful create: an
instance of the registered class, constructed with the given keyword
arguments.  Plugin classes are identified by the `Nat` under which the
registry stores them; keyword arguments are name/value pairs. -/
structure PluginInstance where
  cls : Nat
  kwargs : List (String × String)
deriving DecidableEq

namespace TTSFactory

/-- factory.py `TTSFactory.engines()`: `list(get_registry().keys())`. -/
def engines (reg : List (String × Nat)) : List String :=
  reg.map Prod.fst

/-- factory.py `TTSFactory.create(engine_name, **engine_kwargs)`: looks the
name up in the plugin registry (`get_plugin_class`), raises a KeyError
listing the registered engines when absent, otherwise instantiates the
registered class with the keyword arguments. -/
def create (reg : List (String × Nat)) (engine_name : String)
    (engine_kwargs : List (String × String)) : Except FactoryErr PluginInstance :=
  match lookupKey reg engine_name with
  | none => Except.error { missing := engine_name, available := engines reg }
  | some cls => Except.ok { cls := cls, kwargs := engine_kwargs }

end TTSFactory

/-- The call the XTTS plugin makes to the backend: the constructor name and
the keyword arguments it receives. -/
structure CoquiCall where
  ctor : String
  kwargs : List (String × String)
deriving DecidableEq

/-- Python call semantics for `dict(model="xtts", **engine_kwargs)`: if any
splatted key collides with an explicit keyword, the call raises TypeError
(got multiple values for a keyword argument); otherwise the keywords merge. -/
def dictKwCall (explicit : List (String × String)) (splat : List (String × String)) :
    Except String (List (String × String)) :=
  if splat.any (fun kv => (explicit.map Prod.fst).contains kv.1) then
    Except.error "TypeError: got multiple values for keyword argument"
  else Except.ok (explicit ++ splat)

/-- plugins/xtts_plugin.py `XTTSPlugin.build_engine`:
`kwargs = dict(model="xtts", **self.engine_kwargs)` then
`CoquiEngine(**kwargs)`. -/
def build_engine (engine_kwargs : List (String × String)) : Except String CoquiCall :=
  match dictKwCall [("model", "xtts")] engine_kwargs with
  | Except.error e => Except.error e
  | Except.ok kw => Except.ok { ctor := "CoquiEngine", kwargs := kw }

/-! ## Theorems -/

/-- C9: the branch guarded by `if "__name__" == "__main__":` compares the two
distinct string literals and is always false, so the uvicorn.run call in
that branch is never executed. -/
theorem main_guard_unreachable : mainGuardCond = false ∧ uvicornRunCalled = false := by
  decide

/-- A successful `get_engine` leaves its result cached under its language. -/
theorem get_engine_caches (fails : String → Bool) (p : Pool) (lang : String)
    (e : Nat) (p1 : Pool) (h : get_engine fails p lang = (Except.ok e, p1)) :
    lookupKey p1.engines lang = some e := by
  unfold get_engine at h
  cases hl : lookupKey p.engines lang with
  | some e0 =>
    rw [hl] at h
    simp only [Prod.mk.injEq, Except.ok.injEq] at h
    rw [← h.2, hl, h.1]
  | none =>
    rw [hl] at h
    by_cases hf : fails lang = true
    · simp [hf] at h
    · simp only [hf, if_neg, Bool.false_eq_true, if_false] at h
      have hl1 : lookupKey (constructEngine p lang).engines lang = some p.nextId := by
        simp [constructEngine, lookupKey]
      rw [hl1] at h
      simp only [Prod.mk.injEq, Except.ok.injEq] at h
      rw [← h.2, hl1, h.1]

/-- C3: two sequential calls to get_engine with the same lang: after a first
call returns engine `e` and pool `p1`, the second call returns the identical
cached instance `e` and the pool unchanged (so its construction counter does
not move: no construction happens on the second call). -/
theorem get_engine_constructs_at_most_once (fails : String → Bool) (p : Pool)
    (lang : String) (e : Nat) (p1 : Pool)
    (h : get_engine fails p lang = (Except.ok e, p1)) :
    get_engine fails p1 lang = (Except.ok e, p1) := by
  have hc := get_engine_caches fails p lang e p1 h
  unfold get_engine
  rw [hc]

/-- C3 witness: constructing for "a" in the empty pool, then asking again. -/
theorem get_engine_constructs_at_most_once_witness :
    get_engine (fun _ => false) emptyPool "a" =
      (Except.ok 0, { engines := [("a", 0)], nextId := 1, constructions := 1 }) ∧
    get_engine (fun _ => false)
        { engines := [("a", 0)], nextId := 1, constructions := 1 } "a" =
      (Except.ok 0, { engines := [("a", 0)], nextId := 1, constructions := 1 }) :=
  ⟨rfl,
   get_engine_constructs_at_most_once (fun _ => false) emptyPool "a" 0
     { engines := [("a", 0)], nextId := 1, constructions := 1 } rfl⟩

/-- C4: when the constructor raises for an uncached language, get_engine
propagates the failure and returns the pool unchanged (no entry cached for
that language), and a subsequent call whose construction succeeds retries
construction: it hands out a fresh engine id and bumps the construction
counter. -/
theorem get_engine_failure_not_cached (fails fails2 : String → Bool) (p : Pool)
    (lang : String) (habs : lookupKey p.engines lang = none)
    (hf : fails lang = true) (hok : fails2 lang = false) :
    get_engine fails p lang = (Except.error (), p) ∧
    get_engine fails2 p lang = (Except.ok p.nextId, constructEngine p lang) := by
  constructor
  · unfold get_engine
    rw [habs, hf]
    simp
  · unfold get_engine
    rw [habs, hok]
    simp only [Bool.false_eq_true, if_false]
    have hl1 : lookupKey (constructEngine p lang).engines lang = some p.nextId := by
      simp [constructEngine, lookupKey]
    rw [hl1]

/-- C4 witness: a failing constructor on the empty pool, then a retry. -/
theorem get_engine_failure_not_cached_witness :
    lookupKey emptyPool.engines "a" = none ∧ (fun _ : String => true) "a" = true ∧
    (fun _ : String => false) "a" = false ∧
    get_engine (fun _ => true) emptyPool "a" = (Except.error (), emptyPool) ∧
    get_engine (fun _ => false) emptyPool "a" =
      (Except.ok emptyPool.nextId, constructEngine emptyPool "a") := by
  refine ⟨by decide, rfl, rfl, ?_, ?_⟩
  · exact (get_engine_failure_not_cached (fun _ => true) (fun _ => false)
      emptyPool "a" (by decide) rfl rfl).1
  · exact (get_engine_failure_not_cached (fun _ => true) (fun _ => false)
      emptyPool "a" (by decide) rfl rfl).2

/-- C5: app.py defines a lifespan hook whose body would preload engines for
the hot languages "a" and "b" and clear the pool at shutdown, but the
FastAPI application is constructed with `FastAPI(title=...)` alone: the hook
is never registered, so at startup no preload runs, the pool seen by the
first request is empty, and the first request for the hot language "a"
itself performs a construction — contrary to the claim. -/
theorem lifespan_not_registered :
    (lookupKey (lifespan_startup emptyPool).engines "a" = some 0 ∧
     lookupKey (lifespan_startup emptyPool).engines "b" = some 1 ∧
     (lifespan_shutdown (lifespan_startup emptyPool)).engines = []) ∧
    app.hasLifespan = false ∧
    (startupPool app).engines = [] ∧
    ((get_engine (fun _ => false) (startupPool app) "a").2).constructions =
      (startupPool app).constructions + 1 := by
  decide

/-- C6: the /tts route rejects with 422 exactly the requests whose text is
missing or empty or whose speed lies outside [0.5, 2.0]; in particular
speed 0.49 and 2.01 are rejected while the boundaries 0.5 and 2.0 are
accepted, and omitted parameters default to voice "af_heart", lang "a",
speed 1.0. -/
theorem tts_query_422_rule :
    (∀ r : RawQuery,
      isAccepted r = true ↔
        ((∃ t, r.text = some t ∧ 1 ≤ t.length) ∧
         1/2 ≤ r.speed.getD 1 ∧ r.speed.getD 1 ≤ 2)) ∧
    isAccepted { text := some "hi", voice := none, lang := none, speed := some (49/100) } = false ∧
    isAccepted { text := some "hi", voice := none, lang := none, speed := some (201/100) } = false ∧
    isAccepted { text := some "hi", voice := none, lang := none, speed := some (1/2) } = true ∧
    isAccepted { text := some "hi", voice := none, lang := none, speed := some 2 } = true ∧
    isAccepted { text := none, voice := none, lang := none, speed := none } = false ∧
    isAccepted { text := some "", voice := none, lang := none, speed := none } = false ∧
    validateQuery { text := some "hi", voice := none, lang := none, speed := none } =
      Except.ok { text := "hi", voice := "af_heart", lang := "a", speed := 1 } := by
  refine ⟨?_, by norm_num [isAccepted, validateQuery],
    by norm_num [isAccepted, validateQuery],
    by norm_num [isAccepted, validateQuery]; decide,
    by norm_num [isAccepted, validateQuery]; decide,
    by decide, by decide, ?_⟩
  · intro r
    obtain ⟨otext, ovoice, olang, ospeed⟩ := r
    cases otext with
    | none => simp [isAccepted, validateQuery]
    | some t =>
      by_cases h1 : t.length < 1
      · simp only [isAccepted, validateQuery]
        rw [if_pos h1]
        simp only [Bool.false_eq_true, false_iff]
        rintro ⟨⟨t2, ht2, hle⟩, -⟩
        exact absurd (Option.some.inj ht2 ▸ hle) (by omega)
      · by_cases h2 : (ospeed.getD 1 < 1/2 ∨ 2 < ospeed.getD 1)
        · simp only [isAccepted, validateQuery]
          rw [if_neg h1, if_pos h2]
          simp only [Bool.false_eq_true, false_iff]
          rintro ⟨-, hl, hr⟩
          rcases h2 with h | h
          · exact absurd hl (not_le.mpr h)
          · exact absurd hr (not_le.mpr h)
        · simp only [isAccepted, validateQuery]
          rw [if_neg h1, if_neg h2]
          push_neg at h2
          simp only [true_iff]
          exact ⟨⟨t, rfl, by omega⟩, h2.1, h2.2⟩
  · norm_num [validateQuery]
    intro h
    exact absurd h (by decide)

/-- C7: for every request that passes validation, the route answers with
status 200, media type audio/pcm, exactly the three X-Audio headers
(sample rate 24000, codec s16le, 1 channel), and a body that is the byte
stream produced by the streaming bridge on the validated parameters. -/
theorem tts_response_format (r : RawQuery) (p : TtsParams)
    (_h : validateQuery r = Except.ok p) :
    (tts p).status = 200 ∧
    (tts p).mediaType = "audio/pcm" ∧
    (tts p).headers =
      [("X-Audio-Sample-Rate", "24000"),
       ("X-Audio-Codec", "s16le"),
       ("X-Audio-Channels", "1")] ∧
    (tts p).body = { text := p.text, voice := p.voice, speed := p.speed, lang := p.lang } :=
  ⟨rfl, rfl, rfl, rfl⟩

/-- C7 witness: the defaulted request with text "hi". -/
theorem tts_response_format_witness :
    validateQuery { text := some "hi", voice := none, lang := none, speed := none } =
      Except.ok { text := "hi", voice := "af_heart", lang := "a", speed := 1 } ∧
    ((tts { text := "hi", voice := "af_heart", lang := "a", speed := 1 }).status = 200 ∧
     (tts { text := "hi", voice := "af_heart", lang := "a", speed := 1 }).mediaType = "audio/pcm" ∧
     (tts { text := "hi", voice := "af_heart", lang := "a", speed := 1 }).headers =
       [("X-Audio-Sample-Rate", "24000"),
        ("X-Audio-Codec", "s16le"),
        ("X-Audio-Channels", "1")] ∧
     (tts { text := "hi", voice := "af_heart", lang := "a", speed := 1 }).body =
       { text := "hi", voice := "af_heart", speed := 1, lang := "a" }) := by
  have hv : validateQuery { text := some "hi", voice := none, lang := none, speed := none } =
      Except.ok { text := "hi", voice := "af_heart", lang := "a", speed := 1 } := by
    norm_num [validateQuery]
    intro h
    exact absurd h (by decide)
  exact ⟨hv, tts_response_format { text := some "hi", voice := none, lang := none, speed := none }
    { text := "hi", voice := "af_heart", lang := "a", speed := 1 } hv⟩


/-- C8: create fails on every unregistered name with an error listing the
currently registered engine names, and on every registered name returns an
instance of the registered class built with the given keyword arguments. -/
theorem factory_create_lookup (reg : List (String × Nat)) (name : String)
    (kwargs : List (String × String)) :
    (lookupKey reg name = none →
      TTSFactory.create reg name kwargs =
        Except.error { missing := name, available := TTSFactory.engines reg }) ∧
    (∀ c, lookupKey reg name = some c →
      TTSFactory.create reg name kwargs = Except.ok { cls := c, kwargs := kwargs }) := by
  constructor
  · intro h
    unfold TTSFactory.create
    rw [h]
  · intro c h
    unfold TTSFactory.create
    rw [h]

/-- C8 witness: a registry holding only "xtts", probed with an unknown name
and with the registered one. -/
theorem factory_create_lookup_witness :
    (lookupKey [("xtts", 0)] "doesnotexist" = none ∧
     TTSFactory.create [("xtts", 0)] "doesnotexist" [] =
       Except.error { missing := "doesnotexist", available := ["xtts"] }) ∧
    (lookupKey [("xtts", 0)] "xtts" = some 0 ∧
     TTSFactory.create [("xtts", 0)] "xtts" [("voice", "x")] =
       Except.ok { cls := 0, kwargs := [("voice", "x")] }) :=
  ⟨⟨by decide, (factory_create_lookup [("xtts", 0)] "doesnotexist" []).1 (by decide)⟩,
   ⟨by decide, (factory_create_lookup [("xtts", 0)] "xtts" [("voice", "x")]).2 0 (by decide)⟩⟩

/-- C10: build_engine raises TypeError whenever engine_kwargs itself binds
"model" (duplicate keyword in `dict(model="xtts", **engine_kwargs)`), and
otherwise calls CoquiEngine with model "xtts" merged ahead of the
remaining keyword arguments. -/
theorem build_engine_model_kwarg (kw : List (String × String)) :
    ("model" ∈ kw.map Prod.fst →
      build_engine kw = Except.error "TypeError: got multiple values for keyword argument") ∧
    ("model" ∉ kw.map Prod.fst →
      build_engine kw = Except.ok { ctor := "CoquiEngine", kwargs := ("model", "xtts") :: kw }) := by
  have hkey : (kw.any (fun kv => ([("model", "xtts")].map Prod.fst).contains kv.1) = true) ↔
      "model" ∈ kw.map Prod.fst := by
    simp only [List.any_eq_true, List.map_cons, List.map_nil, List.contains_cons,
      List.contains_nil, Bool.or_false, beq_iff_eq, List.mem_map]
  constructor
  · intro h
    unfold build_engine dictKwCall
    rw [if_pos (hkey.mpr h)]
  · intro h
    unfold build_engine dictKwCall
    rw [if_neg (fun hc => h (hkey.mp hc))]
    rfl

/-- C10 witness: engine_kwargs with and without a "model" binding. -/
theorem build_engine_model_kwarg_witness :
    ("model" ∈ ([("model", "other")].map Prod.fst) ∧
     build_engine [("model", "other")] =
       Except.error "TypeError: got multiple values for keyword argument") ∧
    ("model" ∉ ([("voice", "x")].map Prod.fst) ∧
     build_engine [("voice", "x")] =
       Except.ok { ctor := "CoquiEngine", kwargs := [("model", "xtts"), ("voice", "x")] }) :=
  ⟨⟨by decide, (build_engine_model_kwarg [("model", "other")]).1 (by decide)⟩,
   ⟨by decide, (build_engine_model_kwarg [("voice", "x")]).2 (by decide)⟩⟩

/-- The bridge invariant holds in the initial per-request state. -/
theorem bridgeInv_init (bs : List Chunk) : BridgeInv bs (initBridge bs) := by
  refine ⟨by simp [initBridge], Or.inl ⟨rfl, [], bs, by simp, ?_, by simp [initBridge]⟩⟩
  simp [initBridge, sessionEvents]

/-- A producer callback (chunk enqueue or stop) preserves the invariant. -/
theorem bridgeInv_producer (bs : List Chunk) (s : BridgeState) (h : BridgeInv bs s) :
    BridgeInv bs (producerStep s) := by
  obtain ⟨pend, q, d, y, hl⟩ := s
  obtain ⟨hhalt, hcase⟩ := h
  rcases hcase with ⟨hdone, pre, suf, hbs, hpend, hyq⟩ | ⟨hdone, hpend, hyq⟩
  · simp only at hdone hpend hyq
    subst hdone hpend
    cases suf with
    | nil =>
      have hstep : producerStep ⟨List.map ProdEvent.chunk ([] : List Chunk) ++ [ProdEvent.stop], q, false, y, hl⟩ =
          ⟨[], q, true, y, hl⟩ := by
        simp [producerStep]
      rw [hstep]
      refine ⟨?_, Or.inr ⟨rfl, rfl, ?_⟩⟩
      · intro hh
        exact absurd (hhalt hh).1 (by simp)
      · rw [hyq, hbs, List.append_nil]
    | cons b suf2 =>
      have hstep : producerStep ⟨List.map ProdEvent.chunk (b :: suf2) ++ [ProdEvent.stop], q, false, y, hl⟩ =
          ⟨List.map ProdEvent.chunk suf2 ++ [ProdEvent.stop], q ++ [b], false, y, hl⟩ := by
        simp [producerStep]
      rw [hstep]
      refine ⟨?_, Or.inl ⟨rfl, pre ++ [b], suf2, by simpa using hbs, rfl, ?_⟩⟩
      · intro hh
        exact absurd (hhalt hh).1 (by simp)
      · rw [← List.append_assoc, hyq]
  · simp only at hdone hpend hyq
    subst hdone hpend
    exact ⟨hhalt, Or.inr ⟨rfl, rfl, hyq⟩⟩

/-- One iteration of the consumer poll loop preserves the invariant. -/
theorem bridgeInv_consumer (bs : List Chunk) (s : BridgeState) (h : BridgeInv bs s) :
    BridgeInv bs (consumerStep s) := by
  obtain ⟨pend, q, d, y, hl⟩ := s
  obtain ⟨hhalt, hcase⟩ := h
  cases hl with
  | true =>
    have : consumerStep ⟨pend, q, d, y, true⟩ = ⟨pend, q, d, y, true⟩ := by
      simp [consumerStep]
    rw [this]
    exact ⟨hhalt, hcase⟩
  | false =>
    by_cases hde : d = true ∧ q = []
    · obtain ⟨hd, hq⟩ := hde
      subst hd hq
      have : consumerStep ⟨pend, [], true, y, false⟩ = ⟨pend, [], true, y, true⟩ := by
        simp [consumerStep]
      rw [this]
      rcases hcase with ⟨hdone, -⟩ | ⟨-, hpend, hyq⟩
      · cases hdone
      · exact ⟨fun _ => ⟨rfl, rfl⟩, Or.inr ⟨rfl, hpend, hyq⟩⟩
    · cases q with
      | nil =>
        have hd : d = false := by
          cases d
          · rfl
          · exact absurd ⟨rfl, rfl⟩ hde
        subst hd
        have : consumerStep ⟨pend, [], false, y, false⟩ = ⟨pend, [], false, y, false⟩ := by
          simp [consumerStep]
        rw [this]
        exact ⟨hhalt, hcase⟩
      | cons b rest =>
        have : consumerStep ⟨pend, b :: rest, d, y, false⟩ =
            ⟨pend, rest, d, y ++ [b], false⟩ := by
          simp [consumerStep]
        rw [this]
        refine ⟨by simp, ?_⟩
        rcases hcase with ⟨hdone, pre, suf, hbs, hpend, hyq⟩ | ⟨hdone, hpend, hyq⟩
        · exact Or.inl ⟨hdone, pre, suf, hbs, hpend, by
            simpa [List.append_assoc] using hyq⟩
        · exact Or.inr ⟨hdone, hpend, by
            simpa [List.append_assoc] using hyq⟩

/-- The invariant holds after any interleaving of producer and consumer steps. -/
theorem bridgeInv_runSched (bs : List Chunk) (s : BridgeState) (sch : List Bool)
    (h : BridgeInv bs s) : BridgeInv bs (runSched s sch) := by
  induction sch generalizing s with
  | nil => exact h
  | cons c sch ih =>
    cases c with
    | true => exact ih (producerStep s) (bridgeInv_producer bs s h)
    | false => exact ih (consumerStep s) (bridgeInv_consumer bs s h)

/-- Once the completion event is set, queue-length-plus-one further poll
iterations exit the loop, yielding exactly the queued chunks in order. -/
theorem consumer_drain (q : List Chunk) : ∀ (s : BridgeState), s.queue = q → s.done = true →
    (s.halted = true → s.queue = []) →
    (runSched s (List.replicate (q.length + 1) false)).halted = true ∧
    (runSched s (List.replicate (q.length + 1) false)).yielded = s.yielded ++ s.queue := by
  induction q with
  | nil =>
    rintro ⟨pend, q, d, y, hl⟩ hq hd hh
    simp only at hq hd
    subst hq hd
    cases hl with
    | true =>
      have : consumerStep ⟨pend, [], true, y, true⟩ = ⟨pend, [], true, y, true⟩ := by
        simp [consumerStep]
      simp [runSched, List.replicate, this]
    | false =>
      have : consumerStep ⟨pend, [], true, y, false⟩ = ⟨pend, [], true, y, true⟩ := by
        simp [consumerStep]
      simp [runSched, List.replicate, this]
  | cons b rest ih =>
    rintro ⟨pend, q, d, y, hl⟩ hq hd hh
    simp only at hq hd
    subst hq hd
    cases hl with
    | true => exact absurd (hh rfl) (by simp)
    | false =>
      have hstep : consumerStep ⟨pend, b :: rest, true, y, false⟩ =
          ⟨pend, rest, true, y ++ [b], false⟩ := by
        simp [consumerStep]
      have hrun : runSched ⟨pend, b :: rest, true, y, false⟩
          (List.replicate ((b :: rest).length + 1) false) =
          runSched ⟨pend, rest, true, y ++ [b], false⟩
            (List.replicate (rest.length + 1) false) := by
        simp only [List.length_cons, List.replicate, runSched, hstep]
      rw [hrun]
      have := ih ⟨pend, rest, true, y ++ [b], false⟩ rfl rfl (by simp)
      simpa [List.append_assoc] using this

/-- C2: under every interleaving of the producer callbacks with the
consumer loop, a completed stream_tts_bytes run yields exactly the chunk
sequence the on-chunk callback enqueued, in FIFO order. -/
theorem stream_tts_fifo_order (bs : List Chunk) (sch : List Bool)
    (h : (runSched (initBridge bs) sch).halted = true) :
    (runSched (initBridge bs) sch).yielded = bs := by
  have hinv := bridgeInv_runSched bs (initBridge bs) sch (bridgeInv_init bs)
  obtain ⟨hhalt, hcase⟩ := hinv
  obtain ⟨hdone, hqe⟩ := hhalt h
  rcases hcase with ⟨hd, -⟩ | ⟨-, -, hyq⟩
  · rw [hdone] at hd
    cases hd
  · rw [hqe] at hyq
    simpa using hyq

/-- C2 witness: two chunks delivered then consumed. -/
theorem stream_tts_fifo_order_witness :
    (runSched (initBridge [[1], [2]]) [true, true, true, false, false, false]).halted = true ∧
    (runSched (initBridge [[1], [2]]) [true, true, true, false, false, false]).yielded = [[1], [2]] :=
  ⟨by decide, stream_tts_fifo_order [[1], [2]] [true, true, true, false, false, false] (by decide)⟩

/-- C1: once the on-stop callback has fired (all producer events delivered,
so the done event is set), the consumer loop terminates within
queue-length-plus-one further poll cycles — it never hangs waiting on a
chunk that will not arrive — and every chunk enqueued before stop has been
yielded when it ends. -/
theorem stream_tts_terminates_and_drains (bs : List Chunk) (sch : List Bool)
    (h : (runSched (initBridge bs) sch).pending = []) :
    (runSched (runSched (initBridge bs) sch)
      (List.replicate ((runSched (initBridge bs) sch).queue.length + 1) false)).halted = true ∧
    (runSched (runSched (initBridge bs) sch)
      (List.replicate ((runSched (initBridge bs) sch).queue.length + 1) false)).yielded = bs := by
  have hinv := bridgeInv_runSched bs (initBridge bs) sch (bridgeInv_init bs)
  obtain ⟨hhalt, hcase⟩ := hinv
  rcases hcase with ⟨-, pre, suf, -, hpend, -⟩ | ⟨hdone, -, hyq⟩
  · rw [h] at hpend
    exact absurd hpend.symm (by simp)
  · have hd := consumer_drain (runSched (initBridge bs) sch).queue
      (runSched (initBridge bs) sch) rfl hdone (fun hh => (hhalt hh).2)
    exact ⟨hd.1, by rw [hd.2, hyq]⟩

/-- C1 witness: one chunk and the stop signal delivered, then two polls. -/
theorem stream_tts_terminates_and_drains_witness :
    (runSched (initBridge [[7]]) [true, true]).pending = [] ∧
    ((runSched (runSched (initBridge [[7]]) [true, true])
        (List.replicate ((runSched (initBridge [[7]]) [true, true]).queue.length + 1) false)).halted = true ∧
     (runSched (runSched (initBridge [[7]]) [true, true])
        (List.replicate ((runSched (initBridge [[7]]) [true, true]).queue.length + 1) false)).yielded = [[7]]) :=
  ⟨by decide, stream_tts_terminates_and_drains [[7]] [true, true] (by decide)⟩
